import Mathlib

/-!
Verification of the scheduling core of `src/app.py` (a Flask app that
schedules Reddit submissions).  The Python code is shallowly embedded:

* wall-clock and UTC instants are modelled as `Int` seconds (or minutes for
  the stored `post_time` column, which the code keeps as a UTC
  "YYYY-MM-DD HH:MM" string — minute precision; lexicographic order on those
  zero-padded strings coincides with the numeric order used here);
* an IANA time zone, as used through Python's `zoneinfo`, is modelled by the
  two offset functions the code exercises: the offset attached to a naive
  local datetime by `replace(tzinfo=Z)` (Python's default `fold=0`
  disambiguation), and the offset of a UTC instant under `astimezone(Z)`;
* the SQLite table `scheduled_posts` is a `List ScheduledPost`; the SQL
  statements of the code (`SELECT ... WHERE post_time<=? AND posted=0`,
  `UPDATE ... WHERE id=?`, `DELETE ... WHERE id=?`, `ORDER BY post_time`)
  become the corresponding list operations;
* the praw client is an oracle `RedditAPI`: each external call site returns
  `Except String Unit`, where `Except.error msg` stands for a raised Python
  exception whose `str` is `msg`.
-/

set_option autoImplicit false

namespace RedditScheduler

/-- A time zone as observed by the code: `offsetAtLocal w` is the UTC offset
(seconds) that `datetime.replace(tzinfo=Z)` attaches to the naive wall-clock
time `w` (seconds, read as if the wall clock were UTC; Python `fold=0`), and
`offsetAtUtc u` is the offset `astimezone(Z)` uses at the UTC instant `u`. -/
structure Zone where
  offsetAtLocal : Int → Int
  offsetAtUtc : Int → Int

/-- `index`, lines 225–227: interpret the parsed naive local time in the
configured zone and convert to UTC seconds
(`local_naive.replace(tzinfo=APP_TZ).astimezone(timezone.utc)`). -/
def toCanonicalSec (z : Zone) (wall : Int) : Int :=
  wall - z.offsetAtLocal wall

/-- `index`, line 228: `post_time_utc.strftime("%Y-%m-%d %H:%M")` — the stored
canonical time in UTC minutes; `strftime` drops the seconds field, which on
the timeline is flooring, i.e. `Int` euclidean division by 60. -/
def indexStoredMin (z : Zone) (wall : Int) : Int :=
  (toCanonicalSec z wall) / 60

/-- `convert_utc_to_central`, lines 147–152, generalised over the display
zone exactly as the code applies it to `DISPLAY_TZ`: parse the stored UTC
minute value, `astimezone` to the display zone, and format to the minute. -/
def toDisplayMin (z : Zone) (m : Int) : Int :=
  (60 * m + z.offsetAtUtc (60 * m)) / 60

/-- Store a wall-clock time with source zone `z` and display it back in the
same zone `z` (enqueue followed by the list view with `DISPLAY_TZ = z`). -/
def roundTripMin (z : Zone) (wall : Int) : Int :=
  toDisplayMin z (indexStoredMin z wall)

/-- A row of the `scheduled_posts` table (`init_db`, lines 38–53).
`post_time` and `created_at` are UTC minutes (see module docstring),
`posted` is the INTEGER 0/1 flag as a `Bool`. -/
structure ScheduledPost where
  id : Nat
  subreddit : String
  title : String
  post_type : String
  content : String
  post_time : Int
  posted : Bool
  last_error : Option String
  created_at : Int
  flair_id : String
  flair_text : String
  destination_type : String
  deriving Repr, DecidableEq

/-- `SELECT ... FROM scheduled_posts WHERE post_time<=? AND posted=0`
(`check_scheduled_posts`, line 135). -/
def findDueUnposted (db : List ScheduledPost) (now : Int) : List ScheduledPost :=
  db.filter fun p => decide (p.post_time ≤ now) && !p.posted

/-- `UPDATE scheduled_posts SET ... WHERE id=?`: apply `u` to every row whose
`id` matches (ids are unique in SQLite, uniqueness is a hypothesis here). -/
def updateById (db : List ScheduledPost) (i : Nat) (u : ScheduledPost → ScheduledPost) :
    List ScheduledPost :=
  db.map fun p => if p.id = i then u p else p

/-- `check_scheduled_posts`, line 141:
`UPDATE scheduled_posts SET posted=1, last_error=NULL WHERE id=?`. -/
def markPosted (db : List ScheduledPost) (i : Nat) : List ScheduledPost :=
  updateById db i fun p => { p with posted := true, last_error := none }

/-- `check_scheduled_posts`, line 143:
`UPDATE scheduled_posts SET last_error=? WHERE id=?`. -/
def markFailed (db : List ScheduledPost) (i : Nat) (msg : String) : List ScheduledPost :=
  updateById db i fun p => { p with last_error := some msg }

/-- `SELECT ... WHERE id=?` lookup (used only in specifications). -/
def getById (db : List ScheduledPost) (i : Nat) : Option ScheduledPost :=
  db.find? fun p => p.id = i

/-- The praw client as an oracle: one field per external call site of
`post_to_reddit` (lines 109–124).  `Except.error msg` models a raised
exception with `str(e) = msg`; the `reddit.user.me()` lookup of the profile
branches is folded into the corresponding oracle call. -/
structure RedditAPI where
  profileLink : (title content : String) → Except String Unit
  profileText : (title content : String) → Except String Unit
  profileImage : (title content : String) → Except String Unit
  subLink : (subreddit title content flair_id : String) → Except String Unit
  subText : (subreddit title content flair_id : String) → Except String Unit
  subImage : (subreddit title content flair_id : String) → Except String Unit

/-- The `try` body of `post_to_reddit` (lines 106–127): dispatch on
`destination_type` then `post_type`; an unknown `post_type` raises
`ValueError(f"Unknown post_type: {post_type}")`. -/
def postBody (api : RedditAPI) (subreddit title post_type content flair_id
    destination_type : String) : Except String Unit :=
  if destination_type = "profile" then
    if post_type = "link" then api.profileLink title content
    else if post_type = "text" then api.profileText title content
    else if post_type = "image" then api.profileImage title content
    else Except.error ("Unknown post_type: " ++ post_type)
  else
    if post_type = "link" then api.subLink subreddit title content flair_id
    else if post_type = "text" then api.subText subreddit title content flair_id
    else if post_type = "image" then api.subImage subreddit title content flair_id
    else Except.error ("Unknown post_type: " ++ post_type)

/-- `post_to_reddit`, lines 104–129: run the body under the blanket
`try/except`, returning `None` on success and `str(e)` on any exception. -/
def post_to_reddit (api : RedditAPI) (subreddit title post_type content flair_id
    destination_type : String) : Option String :=
  match postBody api subreddit title post_type content flair_id destination_type with
  | Except.ok _ => none
  | Except.error e => some e

/-- Loop body of `check_scheduled_posts` (lines 137–143) for one fetched row. -/
def processRow (api : RedditAPI) (db : List ScheduledPost) (row : ScheduledPost) :
    List ScheduledPost :=
  match post_to_reddit api row.subreddit row.title row.post_type row.content
      row.flair_id row.destination_type with
  | none => markPosted db row.id
  | some err => markFailed db row.id err

/-- `check_scheduled_posts`, lines 131–145: fetch the due unposted rows once,
then process each in order against the (evolving) table. -/
def check_scheduled_posts (api : RedditAPI) (db : List ScheduledPost) (now : Int) :
    List ScheduledPost :=
  (findDueUnposted db now).foldl (processRow api) db

/-- The ids the scan submits: exactly the rows fetched at line 135. -/
def scanSubmitted (db : List ScheduledPost) (now : Int) : List Nat :=
  (findDueUnposted db now).map fun p => p.id

/-- `delete_post`, line 314: `DELETE FROM scheduled_posts WHERE id=?`. -/
def delete_post (db : List ScheduledPost) (i : Nat) : List ScheduledPost :=
  db.filter fun p => p.id ≠ i

/-- `index` GET, line 280: `SELECT ... ORDER BY post_time` (SQLite's stable
ordering of the table by the stored time). -/
def listAll (db : List ScheduledPost) : List ScheduledPost :=
  db.mergeSort fun p q => p.post_time ≤ q.post_time

/-- Python `str.strip()`: drop leading and trailing whitespace. -/
def pyStrip (s : String) : String :=
  ⟨((s.data.dropWhile Char.isWhitespace).reverse.dropWhile Char.isWhitespace).reverse⟩

/-- Python `str.lstrip("r/")`: drop the characters `r` and `/` from the left. -/
def lstripRSlash (s : String) : String :=
  ⟨s.data.dropWhile fun c => c == 'r' || c == '/'⟩

/-- `allowed_file`, lines 24–25: the filename has a dot, and the part after
the last dot, lowercased (Python `rsplit(".", 1)[1].lower()`), is one of
`png`, `jpg`, `jpeg`, `gif`. -/
def allowed_file (filename : String) : Bool :=
  filename.data.contains '.' &&
    (let ext : String := ⟨((filename.data.reverse.takeWhile fun c => c ≠ '.').reverse).map
        Char.toLower⟩
     ext = "png" || ext = "jpg" || ext = "jpeg" || ext = "gif")

/-- The POST form of `index` (lines 205–211, 235, 246, 256): `form.get` of a
missing key is `None` for `post_type` (no default) and the given default for
the rest; `image_file` is the uploaded file's filename, if a file was sent. -/
structure EnqueueForm where
  subreddit : String
  title : String
  post_type : Option String
  post_time : String
  flair_id : String
  flair_text : String
  destination_type : String
  content : String
  image_file : Option String
  deriving Repr

/-- Outcome of the POST branch of `index`: every `flash` + `redirect` before
the INSERT is a rejection; reaching the INSERT and the final redirect is
`scheduled`. -/
inductive EnqueueResult where
  | rejected (msg : String)
  | scheduled
  deriving Repr, DecidableEq

/-- `index` POST, lines 204–275.  Parameters stand for the ambient pieces the
handler reads: `parseL` is `datetime.fromisoformat` on the `T`-normalised
string, returning the naive wall-clock time in seconds (`none` = exception);
`tz` is `APP_TZ`; `nowMin` is `datetime.now(timezone.utc)` in minutes (the
`created_at` column); `savedPathOf fn` is
`str(UPLOAD_DIR / f"{timestamp}_{secure_filename(fn)}")`; `nextId` is the
AUTOINCREMENT id the INSERT assigns. -/
def index_post (parseL : String → Option Int) (tz : Zone) (nowMin : Int)
    (savedPathOf : String → String) (form : EnqueueForm)
    (db : List ScheduledPost) (nextId : Nat) : List ScheduledPost × EnqueueResult :=
  let subreddit := lstripRSlash (pyStrip form.subreddit)
  let title := pyStrip form.title
  let pt := form.post_type.getD ""
  let post_time_str := pyStrip form.post_time
  if title = "" ∨ pt = "" ∨ post_time_str = "" then
    (db, .rejected "Title, post type, and time are required.")
  else if form.destination_type = "subreddit" ∧ subreddit = "" then
    (db, .rejected "Subreddit is required when posting to a subreddit.")
  else
    match parseL post_time_str with
    | none => (db, .rejected "Invalid date/time format. Please use the datetime picker.")
    | some wall =>
      let post_time_store := indexStoredMin tz wall
      let insert : String → List ScheduledPost × EnqueueResult := fun content_value =>
        (db ++ [{ id := nextId, subreddit := subreddit, title := title, post_type := pt,
                  content := content_value, post_time := post_time_store, posted := false,
                  last_error := none, created_at := nowMin,
                  flair_id := pyStrip form.flair_id, flair_text := pyStrip form.flair_text,
                  destination_type := form.destination_type }], .scheduled)
      if pt = "link" then
        let cv := pyStrip form.content
        if cv = "" then (db, .rejected "URL is required for link posts.")
        else insert cv
      else if pt = "text" then
        let cv := pyStrip form.content
        if cv = "" then (db, .rejected "Text body is required for text posts.")
        else insert cv
      else if pt = "image" then
        let fn := form.image_file.getD ""
        if fn ≠ "" then
          if ¬ allowed_file fn then
            (db, .rejected "Only PNG/JPG/JPEG/GIF images are allowed.")
          else insert (savedPathOf fn)
        else
          let cv := pyStrip form.content
          if cv = "" then
            (db, .rejected "Image file (or a valid image path) is required for image posts.")
          else insert cv
      else (db, .rejected "Invalid post type.")

/-- The record value a scan leaves for a processed row `p`
(`check_scheduled_posts`, lines 139–143): posted with the error cleared on
success, the latest error text (status untouched) on failure. -/
def afterAttempt (api : RedditAPI) (p : ScheduledPost) : ScheduledPost :=
  match post_to_reddit api p.subreddit p.title p.post_type p.content
      p.flair_id p.destination_type with
  | none => { p with posted := true, last_error := none }
  | some err => { p with last_error := some err }

/-- `ZoneInfo("America/Chicago")` — the hard-coded `DISPLAY_TZ` of line 30
and a possible `APP_TIMEZONE` value — modelled from the IANA tz data around
its 2024-03-10 spring-forward transition: CST (UTC−6, −21600 s) before
2024-03-10 08:00 UTC (epoch 1710057600), CDT (UTC−5, −18000 s) after.
`offsetAtLocal` follows Python's `fold=0` rule used by `replace(tzinfo=...)`:
a naive local time before 03:00 local wall clock (epoch-as-wall 1710039600),
including the nonexistent 02:00–02:59 gap, gets the pre-transition offset. -/
def americaChicago2024 : Zone where
  offsetAtLocal := fun w => if w < 1710039600 then -21600 else -18000
  offsetAtUtc := fun u => if u < 1710057600 then -21600 else -18000

/-- A fixed-offset zone (`ZoneInfo("UTC")`, the default `APP_TZ`). -/
def utcZone : Zone where
  offsetAtLocal := fun _ => 0
  offsetAtUtc := fun _ => 0

/-- Test fixture: a praw client whose submissions all succeed. -/
def okAPI : RedditAPI where
  profileLink := fun _ _ => Except.ok ()
  profileText := fun _ _ => Except.ok ()
  profileImage := fun _ _ => Except.ok ()
  subLink := fun _ _ _ _ => Except.ok ()
  subText := fun _ _ _ _ => Except.ok ()
  subImage := fun _ _ _ _ => Except.ok ()

/-- Test fixture: a praw client whose submissions all raise "rate limited". -/
def failAPI : RedditAPI where
  profileLink := fun _ _ => Except.error "rate limited"
  profileText := fun _ _ => Except.error "rate limited"
  profileImage := fun _ _ => Except.error "rate limited"
  subLink := fun _ _ _ _ => Except.error "rate limited"
  subText := fun _ _ _ _ => Except.error "rate limited"
  subImage := fun _ _ _ _ => Except.error "rate limited"

/-- Test fixture: a stored row due at 2024-01-01 10:00 UTC (minute 28401720),
with a stale error from an earlier failed attempt. -/
def samplePost : ScheduledPost where
  id := 1
  subreddit := "test"
  title := "T"
  post_type := "text"
  content := "body"
  post_time := 28401720
  posted := false
  last_error := some "old failure"
  created_at := 28401600
  flair_id := ""
  flair_text := ""
  destination_type := "subreddit"

/-- Test fixture: `datetime.fromisoformat` on the one input the witnesses
use — "2024-01-01 10:00" parses to naive epoch-as-wall second 1704103200. -/
def sampleParse : String → Option Int :=
  fun s => if s = "2024-01-01 10:00" then some 1704103200 else none

/-- Test fixture: a valid text-post submission of the enqueue form. -/
def sampleForm : EnqueueForm where
  subreddit := "test"
  title := "T"
  post_type := some "text"
  post_time := "2024-01-01 10:00"
  flair_id := ""
  flair_text := ""
  destination_type := "subreddit"
  content := "body"
  image_file := none

/-! ## Helper lemmas -/

theorem ids_updateById (db : List ScheduledPost) (i : Nat) (u : ScheduledPost → ScheduledPost)
    (hu : ∀ p, (u p).id = p.id) :
    (updateById db i u).map (fun p => p.id) = db.map (fun p => p.id) := by
  induction db with
  | nil => rfl
  | cons q l ih =>
    by_cases hq : q.id = i <;> simp [updateById, hq, hu q] <;>
      simpa [updateById] using ih

theorem ids_processRow (api : RedditAPI) (db : List ScheduledPost) (row : ScheduledPost) :
    (processRow api db row).map (fun p => p.id) = db.map (fun p => p.id) := by
  unfold processRow
  cases post_to_reddit api row.subreddit row.title row.post_type row.content
      row.flair_id row.destination_type with
  | none => exact ids_updateById db row.id _ fun p => rfl
  | some err => exact ids_updateById db row.id _ fun p => rfl

theorem ids_fold (api : RedditAPI) (rows : List ScheduledPost) (db : List ScheduledPost) :
    (rows.foldl (processRow api) db).map (fun p => p.id) = db.map (fun p => p.id) := by
  induction rows generalizing db with
  | nil => rfl
  | cons r rs ih => rw [List.foldl_cons, ih, ids_processRow]

theorem ids_scan (api : RedditAPI) (db : List ScheduledPost) (now : Int) :
    (check_scheduled_posts api db now).map (fun p => p.id) = db.map (fun p => p.id) :=
  ids_fold api (findDueUnposted db now) db

theorem getById_of_mem_nodup {db : List ScheduledPost} {p : ScheduledPost}
    (hnd : (db.map (fun q => q.id)).Nodup) (hp : p ∈ db) :
    getById db p.id = some p := by
  induction db with
  | nil => cases hp
  | cons q l ih =>
    simp only [List.map_cons, List.nodup_cons] at hnd
    rcases List.mem_cons.mp hp with hpq | hpl
    · subst hpq
      simp [getById, List.find?]
    · have hne : q.id ≠ p.id := fun h => hnd.1 (h ▸ List.mem_map_of_mem (fun r => r.id) hpl)
      simp only [getById, List.find?]
      rw [decide_eq_false hne]
      exact ih hnd.2 hpl

theorem getById_cons (q : ScheduledPost) (l : List ScheduledPost) (i : Nat) :
    getById (q :: l) i = if q.id = i then some q else getById l i := by
  simp only [getById, List.find?]
  by_cases h : q.id = i <;> simp [h]

theorem updateById_cons (q : ScheduledPost) (l : List ScheduledPost) (j : Nat)
    (u : ScheduledPost → ScheduledPost) :
    updateById (q :: l) j u = (if q.id = j then u q else q) :: updateById l j u := rfl

theorem getById_updateById_ne (db : List ScheduledPost) (j : Nat)
    (u : ScheduledPost → ScheduledPost) (i : Nat) (hu : ∀ p, (u p).id = p.id) (hij : i ≠ j) :
    getById (updateById db j u) i = getById db i := by
  induction db with
  | nil => rfl
  | cons q l ih =>
    rw [updateById_cons, getById_cons, getById_cons]
    by_cases hqi : q.id = i
    · have hqj : q.id ≠ j := fun h => hij (hqi.symm.trans h)
      rw [if_neg hqj, if_pos hqi, if_pos hqi]
    · by_cases hqj : q.id = j
      · rw [if_pos hqj, if_neg (fun h => hqi ((hu q).symm.trans h)), if_neg hqi, ih]
      · rw [if_neg hqj, if_neg hqi, if_neg hqi, ih]

theorem getById_updateById_eq (db : List ScheduledPost) (i : Nat)
    (u : ScheduledPost → ScheduledPost) (hu : ∀ p, (u p).id = p.id) :
    getById (updateById db i u) i = (getById db i).map u := by
  induction db with
  | nil => rfl
  | cons q l ih =>
    rw [updateById_cons, getById_cons, getById_cons]
    by_cases hqi : q.id = i
    · rw [if_pos hqi, if_pos ((hu q).trans hqi), if_pos hqi, Option.map_some']
    · rw [if_neg hqi, if_neg hqi, if_neg hqi, ih]

theorem getById_markPosted_eq (db : List ScheduledPost) (i : Nat) :
    getById (markPosted db i) i =
      (getById db i).map fun q => { q with posted := true, last_error := none } :=
  getById_updateById_eq db i _ fun q => rfl

theorem getById_markFailed_eq (db : List ScheduledPost) (i : Nat) (msg : String) :
    getById (markFailed db i msg) i =
      (getById db i).map fun q => { q with last_error := some msg } :=
  getById_updateById_eq db i _ fun q => rfl

theorem getById_markPosted_ne (db : List ScheduledPost) (j i : Nat) (hij : i ≠ j) :
    getById (markPosted db j) i = getById db i :=
  getById_updateById_ne db j _ i (fun q => rfl) hij

theorem getById_markFailed_ne (db : List ScheduledPost) (j : Nat) (msg : String)
    (i : Nat) (hij : i ≠ j) :
    getById (markFailed db j msg) i = getById db i :=
  getById_updateById_ne db j _ i (fun q => rfl) hij

theorem getById_processRow_ne (api : RedditAPI) (db : List ScheduledPost)
    (row : ScheduledPost) (i : Nat) (h : i ≠ row.id) :
    getById (processRow api db row) i = getById db i := by
  cases hr : post_to_reddit api row.subreddit row.title row.post_type row.content
      row.flair_id row.destination_type with
  | none => simp only [processRow, hr]; exact getById_markPosted_ne db row.id i h
  | some err => simp only [processRow, hr]; exact getById_markFailed_ne db row.id err i h

theorem getById_fold_ne (api : RedditAPI) (rows : List ScheduledPost)
    (db : List ScheduledPost) (i : Nat) (h : ∀ r ∈ rows, r.id ≠ i) :
    getById (rows.foldl (processRow api) db) i = getById db i := by
  induction rows generalizing db with
  | nil => rfl
  | cons r rs ih =>
    rw [List.foldl_cons, ih _ fun q hq => h q (List.mem_cons_of_mem r hq),
      getById_processRow_ne api db r i fun he => h r (List.mem_cons_self r rs) he.symm]

theorem getById_processRow_self (api : RedditAPI) (db : List ScheduledPost)
    (p : ScheduledPost) (hget : getById db p.id = some p) :
    getById (processRow api db p) p.id = some (afterAttempt api p) := by
  cases hr : post_to_reddit api p.subreddit p.title p.post_type p.content
      p.flair_id p.destination_type with
  | none =>
    simp only [processRow, afterAttempt, hr]
    rw [getById_markPosted_eq, hget, Option.map_some']
  | some err =>
    simp only [processRow, afterAttempt, hr]
    rw [getById_markFailed_eq, hget, Option.map_some']

theorem getById_fold_mem (api : RedditAPI) (rows : List ScheduledPost)
    (db : List ScheduledPost) (p : ScheduledPost)
    (hnd : (rows.map (fun q => q.id)).Nodup) (hmem : p ∈ rows)
    (hget : getById db p.id = some p) :
    getById (rows.foldl (processRow api) db) p.id = some (afterAttempt api p) := by
  induction rows generalizing db with
  | nil => cases hmem
  | cons r rs ih =>
    simp only [List.map_cons, List.nodup_cons] at hnd
    rw [List.foldl_cons]
    rcases List.mem_cons.mp hmem with hpr | hps
    · subst hpr
      rw [getById_fold_ne api rs (processRow api db p) p.id
          fun q hq he => hnd.1 (he ▸ List.mem_map_of_mem (fun x => x.id) hq)]
      exact getById_processRow_self api db p hget
    · have hne : p.id ≠ r.id := fun he =>
        hnd.1 (he ▸ List.mem_map_of_mem (fun x => x.id) hps)
      exact ih (processRow api db r) hnd.2 hps
        (by rw [getById_processRow_ne api db r p.id hne]; exact hget)

theorem nodup_due_ids {db : List ScheduledPost} (now : Int)
    (hnd : (db.map (fun p => p.id)).Nodup) :
    ((findDueUnposted db now).map (fun p => p.id)).Nodup :=
  hnd.sublist ((List.filter_sublist db).map (fun p => p.id))

theorem getById_scan_of_due {api : RedditAPI} {db : List ScheduledPost} {now : Int}
    {p : ScheduledPost} (hnd : (db.map (fun q => q.id)).Nodup)
    (hdue : p ∈ findDueUnposted db now) :
    getById (check_scheduled_posts api db now) p.id = some (afterAttempt api p) :=
  getById_fold_mem api (findDueUnposted db now) db p (nodup_due_ids now hnd) hdue
    (getById_of_mem_nodup hnd (List.mem_of_mem_filter hdue))

/-! ## Claims -/

/-- C3: an item is returned by the due-and-unposted query at `now` iff it is
stored, its status is Pending (`posted = 0`), and its `scheduledAt` is at or
before `now`; in particular an item scheduled in the future is never
returned while `now < scheduledAt`. -/
theorem c3_due_query_iff (db : List ScheduledPost) (now : Int) (p : ScheduledPost) :
    (p ∈ findDueUnposted db now ↔ p ∈ db ∧ p.posted = false ∧ p.post_time ≤ now) ∧
    (now < p.post_time → p ∉ findDueUnposted db now) := by
  have hiff : p ∈ findDueUnposted db now ↔ p ∈ db ∧ p.posted = false ∧ p.post_time ≤ now := by
    simp only [findDueUnposted, List.mem_filter, Bool.and_eq_true, decide_eq_true_eq,
      Bool.not_eq_true']
    tauto
  exact ⟨hiff, fun hlt hmem => absurd (hiff.mp hmem).2.2 (by omega)⟩

/-- Witness for C3 on a concrete table: the sample row is due at its own
scheduled minute and not returned one minute earlier. -/
theorem c3_due_query_iff_witness :
    samplePost ∈ findDueUnposted [samplePost] 28401720 ∧
    samplePost ∉ findDueUnposted [samplePost] 28401600 :=
  ⟨(c3_due_query_iff [samplePost] 28401720 samplePost).1.mpr
      ⟨by decide, by decide, by decide⟩,
    (c3_due_query_iff [samplePost] 28401600 samplePost).2 (by decide)⟩

/-- C4: for a due item whose submit succeeds, the scan leaves its row with
`posted = 1` and `last_error = NULL`, even if a prior attempt had set an
error. -/
theorem c4_success_marks_posted (api : RedditAPI) (db : List ScheduledPost) (now : Int)
    (p : ScheduledPost) (hnd : (db.map (fun q => q.id)).Nodup)
    (hdue : p ∈ findDueUnposted db now)
    (hok : post_to_reddit api p.subreddit p.title p.post_type p.content
      p.flair_id p.destination_type = none) :
    getById (check_scheduled_posts api db now) p.id =
      some { p with posted := true, last_error := none } := by
  rw [getById_scan_of_due hnd hdue]
  simp only [afterAttempt, hok]

/-- Witness for C4: the sample row (which carries a stale `last_error`) is
posted and cleared by a scan with the always-succeeding client. -/
theorem c4_success_marks_posted_witness :
    getById (check_scheduled_posts okAPI [samplePost] 28401720) samplePost.id =
      some { samplePost with posted := true, last_error := none } :=
  c4_success_marks_posted okAPI [samplePost] 28401720 samplePost
    (by decide) (by decide) (by decide)

/-- C5: for a due item whose submit fails, the scan leaves the row Pending
with `last_error` equal to the latest failure message (overwriting any
previous one), and the row is returned again by the due query at any
`now₂ ≥ scheduledAt`. -/
theorem c5_failure_keeps_pending (api : RedditAPI) (db : List ScheduledPost) (now : Int)
    (p : ScheduledPost) (msg : String) (hnd : (db.map (fun q => q.id)).Nodup)
    (hdue : p ∈ findDueUnposted db now)
    (herr : post_to_reddit api p.subreddit p.title p.post_type p.content
      p.flair_id p.destination_type = some msg) :
    getById (check_scheduled_posts api db now) p.id =
      some { p with last_error := some msg } ∧
    ({ p with last_error := some msg } : ScheduledPost).posted = false ∧
    ∀ now₂, p.post_time ≤ now₂ →
      { p with last_error := some msg } ∈
        findDueUnposted (check_scheduled_posts api db now) now₂ := by
  have h1 : getById (check_scheduled_posts api db now) p.id =
      some { p with last_error := some msg } := by
    rw [getById_scan_of_due hnd hdue]
    simp only [afterAttempt, herr]
  have hp : p.posted = false := by
    have := List.of_mem_filter hdue
    simp only [Bool.and_eq_true, Bool.not_eq_true'] at this
    exact this.2
  refine ⟨h1, hp, fun now₂ h2 => List.mem_filter.mpr ⟨List.mem_of_find?_eq_some h1, ?_⟩⟩
  simp [hp, h2]

/-- Witness for C5: a scan with the always-failing client leaves the sample
row Pending with the new message, and the row is due again a minute later. -/
theorem c5_failure_keeps_pending_witness :
    getById (check_scheduled_posts failAPI [samplePost] 28401720) samplePost.id =
      some { samplePost with last_error := some "rate limited" } ∧
    { samplePost with last_error := some "rate limited" } ∈
      findDueUnposted (check_scheduled_posts failAPI [samplePost] 28401720) 28401721 := by
  have h := c5_failure_keeps_pending failAPI [samplePost] 28401720 samplePost
    "rate limited" (by decide) (by decide) (by decide)
  exact ⟨h.1, h.2.2 28401721 (by decide)⟩

/-- C6: the adapter `post_to_reddit` returns success (`none`) or an error
string (`some msg`) for every input and every behaviour of the external
client — it never lets an exception escape — and an unknown content kind in
particular yields the `ValueError` text, not a crash. -/
theorem c6_adapter_never_throws (api : RedditAPI)
    (subreddit title post_type content flair_id destination_type : String) :
    (post_to_reddit api subreddit title post_type content flair_id destination_type = none ∨
      ∃ m, post_to_reddit api subreddit title post_type content flair_id
        destination_type = some m) ∧
    (post_type ≠ "link" → post_type ≠ "text" → post_type ≠ "image" →
      post_to_reddit api subreddit title post_type content flair_id destination_type =
        some ("Unknown post_type: " ++ post_type)) := by
  constructor
  · cases h : post_to_reddit api subreddit title post_type content flair_id
        destination_type with
    | none => exact Or.inl rfl
    | some m => exact Or.inr ⟨m, rfl⟩
  · intro h1 h2 h3
    by_cases hd : destination_type = "profile" <;>
      simp [post_to_reddit, postBody, hd, h1, h2, h3]

/-- Witness for C6: an unknown kind "video" produces an error string even
with a client that would succeed on every known call. -/
theorem c6_adapter_never_throws_witness :
    post_to_reddit okAPI "test" "T" "video" "c" "" "subreddit" =
      some ("Unknown post_type: " ++ "video") :=
  (c6_adapter_never_throws okAPI "test" "T" "video" "c" "" "subreddit").2
    (by decide) (by decide) (by decide)

/-- C8: delete removes the row with the given id unconditionally: afterwards
no row of `listAll` and no row of any due-and-unposted query (also after
further scans) has that id, and deleting an absent id leaves the table
exactly as it was (a no-op, not an error). -/
theorem c8_delete_unconditional (db : List ScheduledPost) (i : Nat) :
    (∀ p ∈ listAll (delete_post db i), p.id ≠ i) ∧
    (∀ now, ∀ p ∈ findDueUnposted (delete_post db i) now, p.id ≠ i) ∧
    (∀ api now now₂, ∀ p ∈ findDueUnposted
      (check_scheduled_posts api (delete_post db i) now) now₂, p.id ≠ i) ∧
    ((∀ p ∈ db, p.id ≠ i) → delete_post db i = db) := by
  have hdel : ∀ p ∈ delete_post db i, p.id ≠ i := by
    intro p hp
    simpa using List.of_mem_filter hp
  refine ⟨?_, ?_, ?_, ?_⟩
  · intro p hp
    rw [listAll, List.mem_mergeSort] at hp
    exact hdel p hp
  · intro now p hp
    exact hdel p (List.mem_of_mem_filter hp)
  · intro api now now₂ p hp he
    have hmem : p ∈ check_scheduled_posts api (delete_post db i) now :=
      List.mem_of_mem_filter hp
    have hid : p.id ∈ (check_scheduled_posts api (delete_post db i) now).map
        (fun q => q.id) := List.mem_map_of_mem _ hmem
    rw [ids_scan] at hid
    obtain ⟨q, hq, hqe⟩ := List.mem_map.mp hid
    exact hdel q hq (hqe.trans he)
  · intro h
    apply List.filter_eq_self.mpr
    intro p hp
    simpa using h p hp

/-- Witness for C8: deleting an absent id (2) is a no-op, and after deleting
id 1 the sample row is no longer due. -/
theorem c8_delete_unconditional_witness :
    delete_post [samplePost] 2 = [samplePost] ∧
    samplePost ∉ findDueUnposted (delete_post [samplePost] 1) 28401720 :=
  ⟨(c8_delete_unconditional [samplePost] 2).2.2.2 (by decide),
    fun hmem => (c8_delete_unconditional [samplePost] 1).2.1 28401720 samplePost hmem
      (by decide)⟩

/-- C9: re-scanning is idempotent for succeeded items: once a due item's
submit has succeeded in a scan, any later scan (any client, any time)
neither submits it again nor changes its row. -/
theorem c9_rescan_idempotent (api : RedditAPI) (db : List ScheduledPost) (now : Int)
    (p : ScheduledPost) (hnd : (db.map (fun q => q.id)).Nodup)
    (hdue : p ∈ findDueUnposted db now)
    (hok : post_to_reddit api p.subreddit p.title p.post_type p.content
      p.flair_id p.destination_type = none) (api₂ : RedditAPI) (now₂ : Int) :
    p.id ∉ scanSubmitted (check_scheduled_posts api db now) now₂ ∧
    getById (check_scheduled_posts api₂ (check_scheduled_posts api db now) now₂) p.id =
      getById (check_scheduled_posts api db now) p.id := by
  have hget : getById (check_scheduled_posts api db now) p.id =
      some { p with posted := true, last_error := none } := by
    rw [getById_scan_of_due hnd hdue]
    simp only [afterAttempt, hok]
  have hnd₁ : ((check_scheduled_posts api db now).map (fun q => q.id)).Nodup := by
    rw [ids_scan]; exact hnd
  have hnotdue : ∀ r ∈ findDueUnposted (check_scheduled_posts api db now) now₂,
      r.id ≠ p.id := by
    intro r hr he
    have hrget : getById (check_scheduled_posts api db now) r.id = some r :=
      getById_of_mem_nodup hnd₁ (List.mem_of_mem_filter hr)
    rw [he, hget] at hrget
    have hrfalse := List.of_mem_filter hr
    rw [← Option.some_inj.mp hrget] at hrfalse
    simp at hrfalse
  constructor
  · intro hmem
    obtain ⟨r, hr, hrid⟩ := List.mem_map.mp hmem
    exact hnotdue r hr hrid
  · exact getById_fold_ne api₂ (findDueUnposted (check_scheduled_posts api db now) now₂)
      (check_scheduled_posts api db now) p.id hnotdue

/-- Witness for C9: after the successful scan of the sample row, a second
scan one minute later does not submit id 1 and leaves its row unchanged. -/
theorem c9_rescan_idempotent_witness :
    samplePost.id ∉ scanSubmitted (check_scheduled_posts okAPI [samplePost] 28401720)
      28401721 ∧
    getById (check_scheduled_posts okAPI
        (check_scheduled_posts okAPI [samplePost] 28401720) 28401721) samplePost.id =
      getById (check_scheduled_posts okAPI [samplePost] 28401720) samplePost.id :=
  c9_rescan_idempotent okAPI [samplePost] 28401720 samplePost
    (by decide) (by decide) (by decide) okAPI 28401721

/-- C10: a failed submission attempt is exactly the single-row
`last_error` update: the table after processing the row equals `updateById`
of the old table setting only `last_error`, every row with another id is
still present unchanged, and the target rows reappear with all fields
unchanged except `last_error`. -/
theorem c10_failure_frame (api : RedditAPI) (db : List ScheduledPost)
    (row : ScheduledPost) (msg : String)
    (hfail : post_to_reddit api row.subreddit row.title row.post_type row.content
      row.flair_id row.destination_type = some msg) :
    processRow api db row =
      updateById db row.id (fun p => { p with last_error := some msg }) ∧
    (∀ q ∈ db, q.id ≠ row.id → q ∈ processRow api db row) ∧
    (∀ q ∈ db, q.id = row.id →
      { q with last_error := some msg } ∈ processRow api db row) := by
  have h1 : processRow api db row =
      updateById db row.id fun p => { p with last_error := some msg } := by
    simp only [processRow, hfail, markFailed]
  refine ⟨h1, fun q hq hne => ?_, fun q hq he => ?_⟩
  · rw [h1]
    exact List.mem_map.mpr ⟨q, hq, by simp [hne]⟩
  · rw [h1]
    exact List.mem_map.mpr ⟨q, hq, by simp [he]⟩

/-- Witness for C10: the failing attempt on the sample row rewrites only its
`last_error`. -/
theorem c10_failure_frame_witness :
    processRow failAPI [samplePost] samplePost =
      updateById [samplePost] samplePost.id
        (fun p => { p with last_error := some "rate limited" }) ∧
    { samplePost with last_error := some "rate limited" } ∈
      processRow failAPI [samplePost] samplePost := by
  have h := c10_failure_frame failAPI [samplePost] samplePost "rate limited" (by decide)
  exact ⟨h.1, h.2.2 samplePost (by decide) rfl⟩

/-- C1: for every enqueue that is accepted, the stored record's
`scheduledAt` is the UTC equivalent of the submitted wall-clock time
interpreted in `APP_TZ`, truncated — not rounded — to the minute: writing
`u` for the UTC instant in seconds, the stored minute `m` satisfies
`60*m ≤ u < 60*m + 60` (so sub-minute parts are always dropped downwards). -/
theorem c1_stored_time_truncated_utc (parseL : String → Option Int) (tz : Zone)
    (nowMin : Int) (savedPathOf : String → String) (form : EnqueueForm)
    (db : List ScheduledPost) (nextId : Nat) (wall : Int)
    (hparse : parseL (pyStrip form.post_time) = some wall)
    (hsched : (index_post parseL tz nowMin savedPathOf form db nextId).2 =
      EnqueueResult.scheduled) :
    ∃ rec, (index_post parseL tz nowMin savedPathOf form db nextId).1 = db ++ [rec] ∧
      rec.post_time = indexStoredMin tz wall ∧
      60 * rec.post_time ≤ toCanonicalSec tz wall ∧
      toCanonicalSec tz wall < 60 * rec.post_time + 60 := by
  have hfloor : 60 * indexStoredMin tz wall ≤ toCanonicalSec tz wall ∧
      toCanonicalSec tz wall < 60 * indexStoredMin tz wall + 60 := by
    unfold indexStoredMin
    omega
  simp only [index_post, hparse] at hsched ⊢
  split_ifs at hsched ⊢ <;>
    exact ⟨_, rfl, rfl, hfloor.1, hfloor.2⟩

/-- Witness for C1: the sample enqueue ("2024-01-01 10:00", source zone UTC)
stores minute 28401720 with the truncation bounds. -/
theorem c1_stored_time_truncated_utc_witness :
    ∃ rec, (index_post sampleParse utcZone 28401720 (fun fn => fn) sampleForm [] 1).1 =
        [] ++ [rec] ∧
      rec.post_time = indexStoredMin utcZone 1704103200 ∧
      60 * rec.post_time ≤ toCanonicalSec utcZone 1704103200 ∧
      toCanonicalSec utcZone 1704103200 < 60 * rec.post_time + 60 :=
  c1_stored_time_truncated_utc sampleParse utcZone 28401720 (fun fn => fn) sampleForm
    [] 1 1704103200 (by decide) (by decide)

/-- C2, counterexample: the round trip `toDisplay(toCanonical(t, Z), Z)` does
NOT reproduce every wall-clock time `t`.  In `America/Chicago` the local time
2024-03-10 02:30 (epoch-as-wall 1710037800, minute 28500630) does not exist:
`replace(tzinfo=...)` interprets it at the pre-gap offset CST, giving
08:30 UTC, and displaying that instant back in the same zone yields
03:30 CDT (minute 28500690), one hour later.  -/
theorem c2_roundtrip_counterexample :
    roundTripMin americaChicago2024 1710037800 ≠ 1710037800 / 60 := by decide

/-- C2, amended: the round trip `toDisplay(toCanonical(t, Z1), Z1)`
reproduces `t` to minute precision whenever the zone's offset at the
resulting UTC instant equals the offset used to interpret `t` (which holds
for every fixed-offset zone, and in a DST zone exactly when `t` is not in a
spring-forward gap) and that offset is a whole number of minutes. -/
theorem c2_roundtrip_amended (z : Zone) (w : Int)
    (hgap : z.offsetAtUtc (60 * indexStoredMin z w) = z.offsetAtLocal w)
    (hmin : (60 : Int) ∣ z.offsetAtLocal w) :
    roundTripMin z w = w / 60 := by
  obtain ⟨k, hk⟩ := hmin
  unfold roundTripMin toDisplayMin
  rw [hgap, hk]
  unfold indexStoredMin toCanonicalSec
  rw [hk]
  omega

/-- Witness for C2 (amended) at the fixed-offset zone UTC and wall second 90:
the round trip reproduces minute 1. -/
theorem c2_roundtrip_amended_witness :
    utcZone.offsetAtUtc (60 * indexStoredMin utcZone 90) = utcZone.offsetAtLocal 90 ∧
    (60 : Int) ∣ utcZone.offsetAtLocal 90 ∧
    roundTripMin utcZone 90 = 90 / 60 :=
  ⟨rfl, ⟨0, by decide⟩, c2_roundtrip_amended utcZone 90 rfl ⟨0, by decide⟩⟩

set_option maxHeartbeats 2000000 in
/-- C7: an enqueue that fails validation — empty (stripped) title, missing
or empty post type, empty time, empty destination for a subreddit post,
unparseable time, or missing content for the given content kind — is
rejected, and a rejected enqueue leaves the table unchanged (nothing is
persisted). -/
theorem c7_validation_rejects_unpersisted (parseL : String → Option Int) (tz : Zone)
    (nowMin : Int) (savedPathOf : String → String) (form : EnqueueForm)
    (db : List ScheduledPost) (nextId : Nat) :
    ((pyStrip form.title = "" ∨
      form.post_type.getD "" = "" ∨
      pyStrip form.post_time = "" ∨
      (form.destination_type = "subreddit" ∧ lstripRSlash (pyStrip form.subreddit) = "") ∨
      parseL (pyStrip form.post_time) = none ∨
      (form.post_type.getD "" = "link" ∧ pyStrip form.content = "") ∨
      (form.post_type.getD "" = "text" ∧ pyStrip form.content = "") ∨
      (form.post_type.getD "" = "image" ∧ form.image_file.getD "" = "" ∧
        pyStrip form.content = "")) →
      ∃ msg, index_post parseL tz nowMin savedPathOf form db nextId =
        (db, EnqueueResult.rejected msg)) ∧
    (∀ msg, (index_post parseL tz nowMin savedPathOf form db nextId).2 =
        EnqueueResult.rejected msg →
      (index_post parseL tz nowMin savedPathOf form db nextId).1 = db) := by
  have hframe : ∀ msg, (index_post parseL tz nowMin savedPathOf form db nextId).2 =
      EnqueueResult.rejected msg →
      (index_post parseL tz nowMin savedPathOf form db nextId).1 = db := by
    intro msg h
    cases hp : parseL (pyStrip form.post_time) with
    | none =>
      simp only [index_post, hp] at h ⊢
      split_ifs at h ⊢ <;> rfl
    | some wall =>
      simp only [index_post, hp] at h ⊢
      split_ifs at h ⊢ <;> first | rfl | simp at h
  have hvalid : (index_post parseL tz nowMin savedPathOf form db nextId).2 =
      EnqueueResult.scheduled →
      ¬ (pyStrip form.title = "" ∨
        form.post_type.getD "" = "" ∨
        pyStrip form.post_time = "" ∨
        (form.destination_type = "subreddit" ∧ lstripRSlash (pyStrip form.subreddit) = "") ∨
        parseL (pyStrip form.post_time) = none ∨
        (form.post_type.getD "" = "link" ∧ pyStrip form.content = "") ∨
        (form.post_type.getD "" = "text" ∧ pyStrip form.content = "") ∨
        (form.post_type.getD "" = "image" ∧ form.image_file.getD "" = "" ∧
          pyStrip form.content = "")) := by
    intro hs hcond
    cases hp : parseL (pyStrip form.post_time) with
    | none =>
      simp only [index_post, hp] at hs
      split_ifs at hs <;> simp at hs
    | some wall =>
      simp only [index_post, hp] at hs
      split_ifs at hs <;> try simp at hs
      all_goals
        rcases hcond with hA | hB | hC | hD | hE |
          ⟨hF1, hF2⟩ | ⟨hG1, hG2⟩ | ⟨hH1, hH2, hH3⟩ <;> simp_all
  refine ⟨fun hcond => ?_, hframe⟩
  cases hres : (index_post parseL tz nowMin savedPathOf form db nextId).2 with
  | scheduled => exact absurd hcond (hvalid hres)
  | rejected msg =>
    exact ⟨msg, Prod.ext (hframe msg hres) hres⟩

/-- Witness for C7: an enqueue whose stripped title is empty is rejected and
persists nothing. -/
theorem c7_validation_rejects_unpersisted_witness :
    (index_post sampleParse utcZone 28401720 (fun fn => fn)
      { sampleForm with title := " " } [samplePost] 2).1 = [samplePost] :=
  (c7_validation_rejects_unpersisted sampleParse utcZone 28401720 (fun fn => fn)
      { sampleForm with title := " " } [samplePost] 2).2
    "Title, post type, and time are required." (by decide)

end RedditScheduler
